import Mathlib

/-!
Shallow embedding of `src/ptzpicocam/ptzpicocam.ino`: a joystick-driven
PTZ camera controller.  The sketch samples three analog axes, maps each
through a deadzone into a (direction, speed) pair, classifies button
presses into short (recall) / long (store) memory commands, and each
33ms tick writes either the memory packet or the drive + zoom packets
to the serial port.  Time (`millis()`) is modelled as a `Nat` argument;
the `unsigned long` subtractions in the source are faithful to `Nat`
truncated subtraction under the monotone-clock assumption.
-/

namespace Ptzpicocam

/-- `PanDirection` enum: `PAN_LEFT = 1`, `PAN_RIGHT = 2`, `PAN_STOP = 3`. -/
inductive PanDirection where
  | left
  | right
  | stop
deriving DecidableEq, Repr

/-- Numeric code of a pan direction, as given by the C enum values. -/
def PanDirection.code : PanDirection → Nat
  | .left => 1
  | .right => 2
  | .stop => 3

/-- `TiltDirection` enum: `TILT_UP = 1`, `TILT_DOWN = 2`, `TILT_STOP = 3`. -/
inductive TiltDirection where
  | up
  | down
  | stop
deriving DecidableEq, Repr

/-- Numeric code of a tilt direction, as given by the C enum values. -/
def TiltDirection.code : TiltDirection → Nat
  | .up => 1
  | .down => 2
  | .stop => 3

/-- `ZoomDirection` enum: `ZOOM_STOP = 0`, `ZOOM_TELE = 2`, `ZOOM_WIDE = 3`. -/
inductive ZoomDirection where
  | stop
  | tele
  | wide
deriving DecidableEq, Repr

/-- Numeric code of a zoom direction, as given by the C enum values. -/
def ZoomDirection.code : ZoomDirection → Nat
  | .stop => 0
  | .tele => 2
  | .wide => 3

/-- `SHORT_PRESS_TIME` (ms): presses shorter than this are short presses. -/
def SHORT_PRESS_TIME : Nat := 1000

/-- `TIME_FOR_MEMORY_commande_memory` (seconds): recall hold window. -/
def TIME_FOR_MEMORY : Nat := 5

/-- `joystick.minVal` set by `initJoystick`. -/
def minVal : Nat := 0

/-- `joystick.maxVal` set by `initJoystick`. -/
def maxVal : Nat := 1023

/-- `joystick.deadzone` (percent) set by `initJoystick`. -/
def deadzonePercent : Nat := 5

/-- `center = joystick.maxVal / 2` in `initJoystick` (integer division). -/
def center : Nat := maxVal / 2

/-- `threshold = center * joystick.deadzone / 100` in `initJoystick`. -/
def threshold : Nat := center * deadzonePercent / 100

/-- `joystick.leftLimit = center - threshold` set by `initJoystick`. -/
def leftLimit : Nat := center - threshold

/-- `joystick.rightLimit = center + threshold` set by `initJoystick`. -/
def rightLimit : Nat := center + threshold

/-- Arduino `map(x, in_min, in_max, out_min, out_max) =
(x - in_min) * (out_max - out_min) / (in_max - in_min) + out_min`.
Every call site in this sketch has `in_min ≤ x`, `in_min < in_max` and
`out_min ≤ out_max`, so `Nat` arithmetic (truncated subtraction and
division) agrees with the C `long` arithmetic there. -/
def amap (x inMin inMax outMin outMax : Nat) : Nat :=
  (x - inMin) * (outMax - outMin) / (inMax - inMin) + outMin

/-- `struct Camera`: per-axis direction and speed. -/
structure Camera where
  panDirection : PanDirection
  panSpeed : Nat
  tiltDirection : TiltDirection
  tiltSpeed : Nat
  zoomDirection : ZoomDirection
  zoomSpeed : Nat
deriving DecidableEq, Repr

/-- Pan branch of `loop`: `joystick.x < leftLimit` drives `PAN_RIGHT`
with `map(abs(x - leftLimit), minVal, leftLimit, 1, 0x18)`;
`x > rightLimit` drives `PAN_LEFT` with `map(x, rightLimit, maxVal, 1, 0x18)`;
otherwise stop with speed 1.  Since `x < leftLimit` in the first branch,
`abs(x - leftLimit) = leftLimit - x`. -/
def mapPan (x : Nat) : PanDirection × Nat :=
  if x < leftLimit then (.right, amap (leftLimit - x) minVal leftLimit 1 0x18)
  else if rightLimit < x then (.left, amap x rightLimit maxVal 1 0x18)
  else (.stop, 1)

/-- Tilt branch of `loop`: `y < leftLimit` drives `TILT_UP` with max `0x17`;
`y > rightLimit` drives `TILT_DOWN` with max `0x18`; otherwise stop, speed 1. -/
def mapTilt (y : Nat) : TiltDirection × Nat :=
  if y < leftLimit then (.up, amap (leftLimit - y) minVal leftLimit 1 0x17)
  else if rightLimit < y then (.down, amap y rightLimit maxVal 1 0x18)
  else (.stop, 1)

/-- Zoom branch of `loop`: `z < leftLimit` drives `ZOOM_WIDE`, LED `LOW`;
`z > rightLimit` drives `ZOOM_TELE`, LED `LOW`; otherwise stop, speed 1,
LED `HIGH`.  The `Bool` is the LED level (`true` = `HIGH`). -/
def mapZoom (z : Nat) : ZoomDirection × Nat × Bool :=
  if z < leftLimit then (.wide, amap (leftLimit - z) minVal leftLimit 1 7, false)
  else if rightLimit < z then (.tele, amap z rightLimit maxVal 1 7, false)
  else (.stop, 1, true)

/-- The three `if` ladders of `loop` writing `camera` from the sampled
axes, together with the zoom LED level they set. -/
def readCamera (x y z : Nat) : Camera × Bool :=
  let p := mapPan x
  let t := mapTilt y
  let zr := mapZoom z
  ({ panDirection := p.1, panSpeed := p.2,
     tiltDirection := t.1, tiltSpeed := t.2,
     zoomDirection := zr.1, zoomSpeed := zr.2.1 }, zr.2.2)

/-- `drivePacket` after the assignments at the bottom of `loop`:
`81 01 06 01 <panSpeed> <tiltSpeed> <panDir> <tiltDir> FF`.
The speeds are stored into `uint8_t` slots, hence `% 256`. -/
def driveBytes (c : Camera) : List Nat :=
  [0x81, 0x01, 0x06, 0x01, c.panSpeed % 256, c.tiltSpeed % 256,
   c.panDirection.code, c.tiltDirection.code, 0xff]

/-- `zoomPacket` after `zoomPacket[4] = (zoomDirection << 4) | zoomSpeed`:
`81 01 04 07 <dirSpeedByte> FF`. -/
def zoomBytes (c : Camera) : List Nat :=
  [0x81, 0x01, 0x04, 0x07, ((c.zoomDirection.code <<< 4) ||| c.zoomSpeed) % 256, 0xff]

/-- `memoryPacket` with its two mutable payload slots
(`memoryPacket[4]` = subcommand, `memoryPacket[5]` = slot):
`81 01 04 3F <subcommand> <slot> FF`. -/
def memoryBytes (sub slot : Nat) : List Nat :=
  [0x81, 0x01, 0x04, 0x3f, sub, slot, 0xff]

/-- `struct Bouton` (timestamps in ms, pin omitted: there is one button). -/
structure Bouton where
  timepressed : Nat
  lastpressed : Nat
  isPress : Bool
deriving DecidableEq, Repr

/-- The mutable globals of the sketch: `allbtn[0]`, `buttonToCheck`
(the source uses the `int8_t` values `-1` / `0`; with a single button this
is the `Bool` "a debounced edge is pending"), `commande_memory`
(0 = idle, 1 = store, 2 = recall), `start_memory_commande_memory`, and the
two mutable payload bytes of `memoryPacket`. -/
structure SysState where
  btn : Bouton
  buttonToCheck : Bool
  commande_memory : Nat
  start_memory : Nat
  memSub : Nat
  memSlot : Nat
deriving DecidableEq, Repr

/-- Globals as initialised by `setup` and the initialisers of
`memoryPacket` / `commande_memory` / `start_memory_commande_memory`. -/
def initState : SysState :=
  { btn := { timepressed := 0, lastpressed := 0, isPress := false }
    buttonToCheck := false
    commande_memory := 0
    start_memory := 0
    memSub := 0x02
    memSlot := 0x00 }

/-- `isr_Btn1`: on a hardware change edge at time `now`, accept it
(record `lastpressed = now`, set the pending index) only when
`now - lastpressed > 70`. -/
def isr_Btn1 (now : Nat) (s : SysState) : SysState :=
  if 70 < now - s.btn.lastpressed then
    { s with btn := { s.btn with lastpressed := now }, buttonToCheck := true }
  else s

/-- The `buttonToCheck != -1` block at the top of `loop`: a pending edge on
a released button records the press (`isPress = true`,
`timepressed = now`); on a pressed button it classifies the release:
elapsed `< SHORT_PRESS_TIME` writes recall (`memoryPacket[4] = 0x02`,
`commande_memory = 2`, `start_memory = now`), otherwise store
(`memoryPacket[4] = 0x01`, `commande_memory = 1`).  Either way the press
flag and the pending index are cleared. -/
def processButton (now : Nat) (s : SysState) : SysState :=
  if s.buttonToCheck then
    if s.btn.isPress = false then
      { s with btn := { s.btn with isPress := true, timepressed := now },
               buttonToCheck := false }
    else if now - s.btn.timepressed < SHORT_PRESS_TIME then
      { s with memSub := 0x02, memSlot := 0x00, commande_memory := 2,
               start_memory := now,
               btn := { s.btn with isPress := false }, buttonToCheck := false }
    else
      { s with memSub := 0x01, memSlot := 0x00, commande_memory := 1,
               btn := { s.btn with isPress := false }, buttonToCheck := false }
  else s

/-- The emission block at the bottom of `loop`: with `commande_memory > 0`
write the 7-byte memory packet, then reset to idle if it was a store
(`commande_memory == 1`) or if the recall window expired
(`millis() - start > TIME_FOR_MEMORY * 1000`); otherwise write the
9-byte drive packet followed by the 6-byte zoom packet.  Returns the new
state and the frames written this tick, in order. -/
def emitPhase (now : Nat) (c : Camera) (s : SysState) : SysState × List (List Nat) :=
  if 0 < s.commande_memory then
    let frames := [memoryBytes s.memSub s.memSlot]
    if s.commande_memory = 1 then ({ s with commande_memory := 0 }, frames)
    else if TIME_FOR_MEMORY * 1000 < now - s.start_memory then
      ({ s with commande_memory := 0 }, frames)
    else (s, frames)
  else (s, [driveBytes c, zoomBytes c])

/-- One input to a `loop` iteration: the clock and the three raw ADC
samples (`analogRead` of pan, tilt, zoom). -/
structure TickInput where
  now : Nat
  x : Nat
  y : Nat
  z : Nat
deriving DecidableEq, Repr

/-- One iteration of `loop`: process a pending button edge, sample and map
the three axes, then emit.  Returns (new state, frames written, LED level). -/
def tick (i : TickInput) (s : SysState) : SysState × List (List Nat) × Bool :=
  let s1 := processButton i.now s
  let cl := readCamera i.x i.y i.z
  let e := emitPhase i.now cl.1 s1
  (e.1, e.2, cl.2)

/-- Iterate `tick` over a list of inputs, collecting all emitted frames. -/
def run : List TickInput → SysState → SysState × List (List Nat)
  | [], s => (s, [])
  | i :: is, s =>
    let st := tick i s
    let r := run is st.1
    (r.1, st.2.1 ++ r.2)

/-- No frame in the list is a memory frame.  The three frames the sketch
can write are distinguished by their fourth byte: `0x01` (drive), `0x07`
(zoom) and `0x3f` (memory). -/
def noMemoryFrame (frames : List (List Nat)) : Prop :=
  ∀ f ∈ frames, f[3]? ≠ some 0x3f

instance (frames : List (List Nat)) : Decidable (noMemoryFrame frames) :=
  inferInstanceAs (Decidable (∀ f ∈ frames, f[3]? ≠ some 0x3f))

/-! ### Helper lemmas -/

theorem leftLimit_eq : leftLimit = 486 := by decide

theorem rightLimit_eq : rightLimit = 536 := by decide

theorem scale_mono {d1 d2 : Nat} (k n : Nat) (h : d1 ≤ d2) :
    d1 * k / n ≤ d2 * k / n :=
  Nat.div_le_div_right (Nat.mul_le_mul h (Nat.le_refl k))

theorem scale_le {d n : Nat} (k : Nat) (hd : d ≤ n) (hn : 0 < n) :
    d * k / n ≤ k := by
  calc d * k / n ≤ n * k / n := Nat.div_le_div_right (Nat.mul_le_mul hd (Nat.le_refl k))
    _ = k := by rw [Nat.mul_div_cancel_left _ hn]

theorem mapPan_low {x : Nat} (h : x < leftLimit) :
    mapPan x = (.right, (486 - x) * 23 / 486 + 1) := by
  rw [mapPan, if_pos h, leftLimit_eq]
  norm_num [amap, minVal]

theorem mapPan_high {x : Nat} (h : rightLimit < x) :
    mapPan x = (.left, (x - 536) * 23 / 487 + 1) := by
  have hnl : ¬ x < leftLimit := by
    rw [leftLimit_eq]; rw [rightLimit_eq] at h; omega
  rw [mapPan, if_neg hnl, if_pos h, rightLimit_eq]
  norm_num [amap, maxVal]

theorem mapPan_dead {x : Nat} (h1 : leftLimit ≤ x) (h2 : x ≤ rightLimit) :
    mapPan x = (.stop, 1) := by
  rw [mapPan, if_neg (by omega), if_neg (by omega)]

theorem mapTilt_low {y : Nat} (h : y < leftLimit) :
    mapTilt y = (.up, (486 - y) * 22 / 486 + 1) := by
  rw [mapTilt, if_pos h, leftLimit_eq]
  norm_num [amap, minVal]

theorem mapTilt_high {y : Nat} (h : rightLimit < y) :
    mapTilt y = (.down, (y - 536) * 23 / 487 + 1) := by
  have hnl : ¬ y < leftLimit := by
    rw [leftLimit_eq]; rw [rightLimit_eq] at h; omega
  rw [mapTilt, if_neg hnl, if_pos h, rightLimit_eq]
  norm_num [amap, maxVal]

theorem mapTilt_dead {y : Nat} (h1 : leftLimit ≤ y) (h2 : y ≤ rightLimit) :
    mapTilt y = (.stop, 1) := by
  rw [mapTilt, if_neg (by omega), if_neg (by omega)]

theorem mapZoom_low {z : Nat} (h : z < leftLimit) :
    mapZoom z = (.wide, (486 - z) * 6 / 486 + 1, false) := by
  rw [mapZoom, if_pos h, leftLimit_eq]
  norm_num [amap, minVal]

theorem mapZoom_high {z : Nat} (h : rightLimit < z) :
    mapZoom z = (.tele, (z - 536) * 6 / 487 + 1, false) := by
  have hnl : ¬ z < leftLimit := by
    rw [leftLimit_eq]; rw [rightLimit_eq] at h; omega
  rw [mapZoom, if_neg hnl, if_pos h, rightLimit_eq]
  norm_num [amap, maxVal]

theorem mapZoom_dead {z : Nat} (h1 : leftLimit ≤ z) (h2 : z ≤ rightLimit) :
    mapZoom z = (.stop, 1, true) := by
  rw [mapZoom, if_neg (by omega), if_neg (by omega)]

theorem panCode_bounds (d : PanDirection) : 1 ≤ d.code ∧ d.code ≤ 3 := by
  cases d <;> simp [PanDirection.code]

theorem tiltCode_bounds (d : TiltDirection) : 1 ≤ d.code ∧ d.code ≤ 3 := by
  cases d <;> simp [TiltDirection.code]

theorem processButton_none {s : SysState} (now : Nat) (h : s.buttonToCheck = false) :
    processButton now s = s := by
  simp [processButton, h]

theorem processButton_press {s : SysState} (now : Nat)
    (hp : s.buttonToCheck = true) (hr : s.btn.isPress = false) :
    processButton now s =
      { s with btn := { s.btn with isPress := true, timepressed := now },
               buttonToCheck := false } := by
  simp [processButton, hp, hr]

theorem processButton_short {s : SysState} {now : Nat}
    (hp : s.buttonToCheck = true) (hr : s.btn.isPress = true)
    (ht : now - s.btn.timepressed < SHORT_PRESS_TIME) :
    processButton now s =
      { s with memSub := 0x02, memSlot := 0x00, commande_memory := 2,
               start_memory := now,
               btn := { s.btn with isPress := false }, buttonToCheck := false } := by
  simp [processButton, hp, hr, ht]

theorem processButton_long {s : SysState} {now : Nat}
    (hp : s.buttonToCheck = true) (hr : s.btn.isPress = true)
    (ht : SHORT_PRESS_TIME ≤ now - s.btn.timepressed) :
    processButton now s =
      { s with memSub := 0x01, memSlot := 0x00, commande_memory := 1,
               btn := { s.btn with isPress := false }, buttonToCheck := false } := by
  simp [processButton, hp, hr, Nat.not_lt.mpr ht]

theorem emitPhase_idle {s : SysState} (now : Nat) (c : Camera)
    (h : s.commande_memory = 0) :
    emitPhase now c s = (s, [driveBytes c, zoomBytes c]) := by
  simp [emitPhase, h]

theorem emitPhase_frames {s : SysState} (now : Nat) (c : Camera)
    (h : 0 < s.commande_memory) :
    (emitPhase now c s).2 = [memoryBytes s.memSub s.memSlot] := by
  rw [emitPhase, if_pos h]
  split
  · rfl
  · split <;> rfl

theorem emitPhase_store {s : SysState} (now : Nat) (c : Camera)
    (h : s.commande_memory = 1) :
    (emitPhase now c s).1 = { s with commande_memory := 0 } := by
  simp [emitPhase, h]

theorem emitPhase_recall {s : SysState} (now : Nat) (c : Camera)
    (h : s.commande_memory = 2) :
    (emitPhase now c s).1 =
      if TIME_FOR_MEMORY * 1000 < now - s.start_memory
      then { s with commande_memory := 0 } else s := by
  rw [emitPhase, if_pos (by omega)]
  rw [if_neg (by omega)]
  split <;> simp_all

theorem tick_eq (i : TickInput) (s : SysState) :
    tick i s =
      ((emitPhase i.now (readCamera i.x i.y i.z).1 (processButton i.now s)).1,
       (emitPhase i.now (readCamera i.x i.y i.z).1 (processButton i.now s)).2,
       (readCamera i.x i.y i.z).2) := rfl

theorem run_idle (inps : List TickInput) (s : SysState)
    (hb : s.buttonToCheck = false) (hc : s.commande_memory = 0) :
    (run inps s).1.commande_memory = 0 ∧
    (run inps s).1.buttonToCheck = false ∧
    (run inps s).1.btn = s.btn ∧
    (run inps s).1.memSub = s.memSub ∧
    (run inps s).1.memSlot = s.memSlot ∧
    ∀ f ∈ (run inps s).2, f[3]? ≠ some 0x3f := by
  induction inps generalizing s with
  | nil => simp [run, hb, hc]
  | cons i is ih =>
    have hstep : tick i s = (s, [driveBytes (readCamera i.x i.y i.z).1,
        zoomBytes (readCamera i.x i.y i.z).1], (readCamera i.x i.y i.z).2) := by
      rw [tick_eq, processButton_none _ hb, emitPhase_idle _ _ hc]
    have ihs := ih s hb hc
    rw [run, hstep]
    refine ⟨ihs.1, ihs.2.1, ihs.2.2.1, ihs.2.2.2.1, ihs.2.2.2.2.1, ?_⟩
    intro f hf
    rcases List.mem_append.mp hf with hf | hf
    · simp only [List.mem_cons, List.not_mem_nil, or_false] at hf
      rcases hf with hf | hf
      · subst hf; simp [driveBytes]
      · subst hf; simp [zoomBytes]
    · exact ihs.2.2.2.2.2 f hf

theorem timeWindow_eq : TIME_FOR_MEMORY * 1000 = 5000 := by decide

theorem tick_state (i : TickInput) (s : SysState) :
    (tick i s).1 =
      (emitPhase i.now (readCamera i.x i.y i.z).1 (processButton i.now s)).1 := rfl

theorem tick_frames (i : TickInput) (s : SysState) :
    (tick i s).2.1 =
      (emitPhase i.now (readCamera i.x i.y i.z).1 (processButton i.now s)).2 := rfl

theorem emitPhase_fields (now : Nat) (c : Camera) (s : SysState) :
    (emitPhase now c s).1.btn = s.btn ∧
    (emitPhase now c s).1.buttonToCheck = s.buttonToCheck ∧
    (emitPhase now c s).1.memSub = s.memSub ∧
    (emitPhase now c s).1.memSlot = s.memSlot ∧
    (emitPhase now c s).1.start_memory = s.start_memory := by
  unfold emitPhase
  split
  · split
    · simp
    · split <;> simp
  · simp

theorem mapPan_low_speed {x : Nat} (h : x < leftLimit) :
    (mapPan x).2 = (486 - x) * 23 / 486 + 1 := by rw [mapPan_low h]

theorem mapPan_high_speed {x : Nat} (h : rightLimit < x) :
    (mapPan x).2 = (x - 536) * 23 / 487 + 1 := by rw [mapPan_high h]

theorem mapPan_dead_speed {x : Nat} (h1 : leftLimit ≤ x) (h2 : x ≤ rightLimit) :
    (mapPan x).2 = 1 := by rw [mapPan_dead h1 h2]

theorem mapTilt_low_speed {y : Nat} (h : y < leftLimit) :
    (mapTilt y).2 = (486 - y) * 22 / 486 + 1 := by rw [mapTilt_low h]

theorem mapTilt_high_speed {y : Nat} (h : rightLimit < y) :
    (mapTilt y).2 = (y - 536) * 23 / 487 + 1 := by rw [mapTilt_high h]

theorem mapTilt_dead_speed {y : Nat} (h1 : leftLimit ≤ y) (h2 : y ≤ rightLimit) :
    (mapTilt y).2 = 1 := by rw [mapTilt_dead h1 h2]

theorem mapZoom_low_speed {z : Nat} (h : z < leftLimit) :
    (mapZoom z).2.1 = (486 - z) * 6 / 486 + 1 := by rw [mapZoom_low h]

theorem mapZoom_high_speed {z : Nat} (h : rightLimit < z) :
    (mapZoom z).2.1 = (z - 536) * 6 / 487 + 1 := by rw [mapZoom_high h]

theorem mapZoom_dead_speed {z : Nat} (h1 : leftLimit ≤ z) (h2 : z ≤ rightLimit) :
    (mapZoom z).2.1 = 1 := by rw [mapZoom_dead h1 h2]

theorem mapPan_low_dir {x : Nat} (h : x < leftLimit) :
    (mapPan x).1 = PanDirection.right := by rw [mapPan_low h]

theorem mapPan_high_dir {x : Nat} (h : rightLimit < x) :
    (mapPan x).1 = PanDirection.left := by rw [mapPan_high h]

theorem mapTilt_low_dir {y : Nat} (h : y < leftLimit) :
    (mapTilt y).1 = TiltDirection.up := by rw [mapTilt_low h]

theorem mapTilt_high_dir {y : Nat} (h : rightLimit < y) :
    (mapTilt y).1 = TiltDirection.down := by rw [mapTilt_high h]

theorem mapZoom_low_dir {z : Nat} (h : z < leftLimit) :
    (mapZoom z).1 = ZoomDirection.wide := by rw [mapZoom_low h]

theorem mapZoom_high_dir {z : Nat} (h : rightLimit < z) :
    (mapZoom z).1 = ZoomDirection.tele := by rw [mapZoom_high h]

theorem processButton_memInv (now : Nat) (s : SysState)
    (hsub : s.memSub = 0x01 ∨ s.memSub = 0x02) (hslot : s.memSlot = 0) :
    ((processButton now s).memSub = 0x01 ∨ (processButton now s).memSub = 0x02) ∧
    (processButton now s).memSlot = 0 := by
  unfold processButton
  split
  · split
    · exact ⟨hsub, hslot⟩
    · split
      · exact ⟨Or.inr rfl, rfl⟩
      · exact ⟨Or.inl rfl, rfl⟩
  · exact ⟨hsub, hslot⟩

theorem emitPhase_recall_fresh {s : SysState} (now : Nat) (c : Camera)
    (h : s.commande_memory = 2) (hs : s.start_memory = now) :
    (emitPhase now c s).1 = s := by
  rw [emitPhase_recall now c h, timeWindow_eq, hs, if_neg (by omega)]

/-! ### Claim theorems -/

/-- C3 counterexample: the claim says an edge is accepted when **at least**
70ms elapsed since the previous accepted edge.  With `lastpressed = 0`, an
edge at `now = 70` has exactly 70ms elapsed, yet `isr_Btn1`
(`millis() - lastpressed > 70`) rejects it: no pending edge is recorded. -/
theorem C3_boundary_cex :
    70 ≤ 70 - initState.btn.lastpressed ∧
    (isr_Btn1 70 initState).buttonToCheck = false := by decide

/-- C3 (amended): a hardware edge at time `t` is accepted (pending flag set,
`lastpressed` updated to `t`) exactly when **strictly more than** 70ms
elapsed since the previously accepted edge; an edge with elapsed time
≤ 70ms leaves the state unchanged, so two edges less than 70ms apart
count as one logical edge. -/
theorem C3_debounce (s : SysState) (t1 t2 : Nat)
    (hacc : 70 < t1 - s.btn.lastpressed) (hclose : t2 - t1 < 70) :
    (isr_Btn1 t1 s).buttonToCheck = true ∧
    (isr_Btn1 t1 s).btn.lastpressed = t1 ∧
    isr_Btn1 t2 (isr_Btn1 t1 s) = isr_Btn1 t1 s ∧
    (∀ s' t, t - s'.btn.lastpressed ≤ 70 → isr_Btn1 t s' = s') ∧
    (∀ s' t, 70 < t - s'.btn.lastpressed →
      (isr_Btn1 t s').buttonToCheck = true ∧ (isr_Btn1 t s').btn.lastpressed = t) := by
  have h1 : isr_Btn1 t1 s =
      { s with btn := { s.btn with lastpressed := t1 }, buttonToCheck := true } := by
    rw [isr_Btn1, if_pos hacc]
  have hrej : ∀ s' t, t - s'.btn.lastpressed ≤ 70 → isr_Btn1 t s' = s' := by
    intro s' t h
    rw [isr_Btn1, if_neg (by omega)]
  refine ⟨by rw [h1], by rw [h1], ?_, hrej, ?_⟩
  · rw [h1]
    exact hrej _ t2 (show t2 - t1 ≤ 70 by omega)
  · intro s' t h
    rw [isr_Btn1, if_pos h]
    exact ⟨rfl, rfl⟩

theorem C3_debounce_witness :
    (isr_Btn1 71 initState).buttonToCheck = true :=
  (C3_debounce initState 71 100 (by decide) (by decide)).1

/-- C6: any raw sample `v` inside `[leftLimit, rightLimit]` maps to the
stop variant with speed 1 on all three axes and drives the zoom LED high;
any sample `w` outside the deadzone drives the zoom LED low. -/
theorem C6_deadzone (v w : Nat) (hlo : leftLimit ≤ v) (hhi : v ≤ rightLimit)
    (hw : w < leftLimit ∨ rightLimit < w) :
    mapPan v = (PanDirection.stop, 1) ∧
    mapTilt v = (TiltDirection.stop, 1) ∧
    mapZoom v = (ZoomDirection.stop, 1, true) ∧
    (mapZoom w).2.2 = false := by
  refine ⟨mapPan_dead hlo hhi, mapTilt_dead hlo hhi, mapZoom_dead hlo hhi, ?_⟩
  rcases hw with hw | hw
  · rw [mapZoom_low hw]
  · rw [mapZoom_high hw]

theorem C6_deadzone_witness : mapPan 511 = (PanDirection.stop, 1) :=
  (C6_deadzone 511 0 (by decide) (by decide) (Or.inl (by decide))).1

/-- C1 counterexample: the claim says RecallActive returns to Idle when
`now - recallStartTime ≥ 5000`.  With `recallStartTime = 0`, the tick at
`now = 5000` has exactly 5000ms elapsed, yet the code
(`millis() - start > TIME_FOR_MEMORY * 1000`) keeps `commande_memory = 2`. -/
theorem C1_recall_boundary_cex :
    5000 ≤ (5000 : Nat) - ({ initState with commande_memory := 2 } : SysState).start_memory ∧
    (tick ⟨5000, 511, 511, 511⟩
        { initState with commande_memory := 2 }).1.commande_memory = 2 := by decide

/-- C1 (amended): while `commande_memory = 2` (RecallActive) and no edge is
pending, every tick emits exactly the recall memory packet and no drive or
zoom frame; the arbiter returns to Idle on the tick where
`now - recallStartTime` is **strictly greater than** 5000ms (that tick still
emits the memory packet), and the very next tick then emits the drive and
zoom frames; if the window has not yet expired the next tick emits the
memory packet again. -/
theorem C1_recall_window (s : SysState) (i j : TickInput)
    (h2 : s.commande_memory = 2) (hnb : s.buttonToCheck = false) :
    (tick i s).2.1 = [memoryBytes s.memSub s.memSlot] ∧
    (tick i s).1.commande_memory = (if 5000 < i.now - s.start_memory then 0 else 2) ∧
    (tick j (tick i s).1).2.1 =
      (if 5000 < i.now - s.start_memory
       then [driveBytes (readCamera j.x j.y j.z).1, zoomBytes (readCamera j.x j.y j.z).1]
       else [memoryBytes s.memSub s.memSlot]) := by
  have hcm : 0 < s.commande_memory := by omega
  refine ⟨?_, ?_, ?_⟩
  · rw [tick_frames, processButton_none _ hnb]
    exact emitPhase_frames _ _ hcm
  · rw [tick_state, processButton_none _ hnb, emitPhase_recall _ _ h2, timeWindow_eq]
    split
    · rfl
    · exact h2
  · split
    · rename_i h
      have h1 : (tick i s).1 = { s with commande_memory := 0 } := by
        rw [tick_state, processButton_none _ hnb, emitPhase_recall _ _ h2, timeWindow_eq,
          if_pos h]
      rw [h1, tick_frames,
        @processButton_none { s with commande_memory := 0 } j.now (by exact hnb),
        @emitPhase_idle { s with commande_memory := 0 } j.now
          (readCamera j.x j.y j.z).1 rfl]
    · have h1 : (tick i s).1 = s := by
        rw [tick_state, processButton_none _ hnb, emitPhase_recall _ _ h2, timeWindow_eq]
        rename_i h
        rw [if_neg h]
      rw [h1, tick_frames, processButton_none _ hnb]
      exact emitPhase_frames _ _ hcm

theorem C1_recall_window_witness :
    (tick ⟨6000, 511, 511, 511⟩ { initState with commande_memory := 2 }).2.1 =
      [memoryBytes 2 0] :=
  (C1_recall_window { initState with commande_memory := 2 } ⟨6000, 511, 511, 511⟩
    ⟨6033, 511, 511, 511⟩ rfl rfl).1

/-- C4: a pending release edge on a pressed button with
`now - pressStartTime ≥ 1000ms` (long press) makes that tick emit exactly
one memory frame `81 01 04 3F 01 00 FF`, return the arbiter to Idle in the
same tick, and the following tick emits the drive and zoom frames again. -/
theorem C4_long_press_store (s : SysState) (i1 i2 : TickInput)
    (hpend : s.buttonToCheck = true) (hP : s.btn.isPress = true)
    (hlong : 1000 ≤ i1.now - s.btn.timepressed) :
    (tick i1 s).2.1 = [[0x81, 0x01, 0x04, 0x3f, 0x01, 0x00, 0xff]] ∧
    (tick i1 s).1.commande_memory = 0 ∧
    (tick i1 s).1.buttonToCheck = false ∧
    (tick i2 (tick i1 s).1).2.1 =
      [driveBytes (readCamera i2.x i2.y i2.z).1, zoomBytes (readCamera i2.x i2.y i2.z).1] := by
  have hpb := processButton_long hpend hP hlong
  refine ⟨?_, ?_, ?_, ?_⟩
  · rw [tick_frames, hpb]
    rfl
  · rw [tick_state, hpb]
    rfl
  · rw [tick_state, hpb]
    rfl
  · rw [tick_state i1 s, hpb]
    rfl

theorem C4_long_press_store_witness :
    (tick ⟨1200, 511, 511, 511⟩
        { initState with btn := { initState.btn with isPress := true },
                         buttonToCheck := true }).2.1 =
      [[0x81, 0x01, 0x04, 0x3f, 0x01, 0x00, 0xff]] :=
  (C4_long_press_store
    { initState with btn := { initState.btn with isPress := true }, buttonToCheck := true }
    ⟨1200, 511, 511, 511⟩ ⟨1233, 511, 511, 511⟩ rfl rfl (by decide)).1

/-- C2: from a released button with a pending accepted edge, the first tick
only records the press (`isPress = true`, `pressStartTime = now`); a second
accepted edge at a later tick classifies the release by its elapsed time:
strictly less than 1000ms yields exactly one recall command
(`memoryPacket[4] = 0x02`, `commande_memory = 2`) and 1000ms or more yields
exactly one store command (`memoryPacket[4] = 0x01`); the release tick
emits exactly one memory frame and returns the button to released. -/
theorem C2_press_classification (s : SysState) (i1 i2 : TickInput)
    (hrel : s.btn.isPress = false) (hpend : s.buttonToCheck = true) :
    (tick i1 s).1.btn.isPress = true ∧
    (tick i1 s).1.btn.timepressed = i1.now ∧
    (tick i2 { (tick i1 s).1 with buttonToCheck := true }).1.btn.isPress = false ∧
    (tick i2 { (tick i1 s).1 with buttonToCheck := true }).1.memSub =
      (if i2.now - i1.now < 1000 then 0x02 else 0x01) ∧
    (tick i2 { (tick i1 s).1 with buttonToCheck := true }).1.commande_memory =
      (if i2.now - i1.now < 1000 then 2 else 0) ∧
    (tick i2 { (tick i1 s).1 with buttonToCheck := true }).2.1 =
      [memoryBytes (if i2.now - i1.now < 1000 then 0x02 else 0x01) 0x00] := by
  have hpb := processButton_press i1.now hpend hrel
  have hf1 := emitPhase_fields i1.now (readCamera i1.x i1.y i1.z).1 (processButton i1.now s)
  have hbtn : (tick i1 s).1.btn = { s.btn with isPress := true, timepressed := i1.now } := by
    rw [tick_state, hf1.1, hpb]
  set u : SysState := { (tick i1 s).1 with buttonToCheck := true }
  have hub : u.btn.isPress = true := by
    show (tick i1 s).1.btn.isPress = true
    rw [hbtn]
  have hut : u.btn.timepressed = i1.now := by
    show (tick i1 s).1.btn.timepressed = i1.now
    rw [hbtn]
  have hf2 := emitPhase_fields i2.now (readCamera i2.x i2.y i2.z).1 (processButton i2.now u)
  by_cases hlt : i2.now - i1.now < 1000
  · have hpb2 := @processButton_short u i2.now rfl hub
      (show i2.now - u.btn.timepressed < SHORT_PRESS_TIME by rw [hut]; exact hlt)
    refine ⟨by rw [hbtn], by rw [hbtn], ?_, ?_, ?_, ?_⟩
    · rw [tick_state, hf2.1, hpb2]
    · rw [tick_state, hf2.2.2.1, hpb2, if_pos hlt]
    · rw [tick_state, hpb2, emitPhase_recall_fresh i2.now _ rfl rfl, if_pos hlt]
    · rw [tick_frames, hpb2, emitPhase_frames _ _ (Nat.zero_lt_succ 1), if_pos hlt]
  · have hpb2 := @processButton_long u i2.now rfl hub
      (show SHORT_PRESS_TIME ≤ i2.now - u.btn.timepressed by
        rw [hut]; exact Nat.not_lt.mp hlt)
    refine ⟨by rw [hbtn], by rw [hbtn], ?_, ?_, ?_, ?_⟩
    · rw [tick_state, hf2.1, hpb2]
    · rw [tick_state, hf2.2.2.1, hpb2, if_neg hlt]
    · rw [tick_state, hpb2, emitPhase_store _ _ rfl, if_neg hlt]
    · rw [tick_frames, hpb2, emitPhase_frames _ _ (Nat.zero_lt_succ 0), if_neg hlt]

theorem C2_press_classification_witness :
    (tick ⟨10, 511, 511, 511⟩ { initState with buttonToCheck := true }).1.btn.isPress = true :=
  (C2_press_classification { initState with buttonToCheck := true }
    ⟨10, 511, 511, 511⟩ ⟨1009, 511, 511, 511⟩ rfl rfl).1

/-- C10 (implicit): the classifier is honoured in every arbiter state: with
the arbiter in RecallActive, a pending release edge classified short
restarts the recall window (`commande_memory` stays 2 and the start
timestamp is reset to `now`), while one classified long switches to the
store behaviour — that tick emits exactly one store memory frame
`81 01 04 3F 01 00 FF` and the next tick resumes drive and zoom emission,
cutting the remaining recall window short. -/
theorem C10_recall_preemption (s : SysState) (i1 i2 : TickInput)
    (_hrec : s.commande_memory = 2) (hP : s.btn.isPress = true)
    (hpend : s.buttonToCheck = true) :
    (tick i1 s).1.commande_memory =
      (if i1.now - s.btn.timepressed < 1000 then 2 else 0) ∧
    (tick i1 s).1.start_memory =
      (if i1.now - s.btn.timepressed < 1000 then i1.now else s.start_memory) ∧
    (tick i1 s).1.memSub = (if i1.now - s.btn.timepressed < 1000 then 0x02 else 0x01) ∧
    (tick i1 s).2.1 =
      [memoryBytes (if i1.now - s.btn.timepressed < 1000 then 0x02 else 0x01) 0x00] ∧
    (tick i2 (tick i1 s).1).2.1 =
      (if i1.now - s.btn.timepressed < 1000
       then [memoryBytes 0x02 0x00]
       else [driveBytes (readCamera i2.x i2.y i2.z).1,
             zoomBytes (readCamera i2.x i2.y i2.z).1]) := by
  have hf1 := emitPhase_fields i1.now (readCamera i1.x i1.y i1.z).1 (processButton i1.now s)
  by_cases hlt : i1.now - s.btn.timepressed < 1000
  · have hpb := processButton_short hpend hP
      (show i1.now - s.btn.timepressed < SHORT_PRESS_TIME from hlt)
    refine ⟨?_, ?_, ?_, ?_, ?_⟩
    · rw [tick_state, hpb, emitPhase_recall_fresh i1.now _ rfl rfl, if_pos hlt]
    · rw [tick_state, hpb, emitPhase_recall_fresh i1.now _ rfl rfl, if_pos hlt]
    · rw [tick_state, hf1.2.2.1, hpb, if_pos hlt]
    · rw [tick_frames, hpb, emitPhase_frames _ _ (Nat.zero_lt_succ 1), if_pos hlt]
    · rw [if_pos hlt, tick_state i1 s, hpb, emitPhase_recall_fresh i1.now _ rfl rfl,
        tick_frames]
      exact emitPhase_frames _ _ (Nat.zero_lt_succ 1)
  · have hpb := processButton_long hpend hP
      (show SHORT_PRESS_TIME ≤ i1.now - s.btn.timepressed from Nat.not_lt.mp hlt)
    refine ⟨?_, ?_, ?_, ?_, ?_⟩
    · rw [tick_state, hpb, emitPhase_store _ _ rfl, if_neg hlt]
    · rw [tick_state, hpb, emitPhase_store _ _ rfl, if_neg hlt]
    · rw [tick_state, hf1.2.2.1, hpb, if_neg hlt]
    · rw [tick_frames, hpb, emitPhase_frames _ _ (Nat.zero_lt_succ 0), if_neg hlt]
    · rw [if_neg hlt, tick_state i1 s, hpb, emitPhase_store _ _ rfl]
      rfl

theorem C10_recall_preemption_witness :
    (tick ⟨500, 511, 511, 511⟩
        { initState with commande_memory := 2,
                         btn := { initState.btn with isPress := true },
                         buttonToCheck := true }).1.commande_memory = 2 :=
  (C10_recall_preemption
    { initState with commande_memory := 2,
                     btn := { initState.btn with isPress := true },
                     buttonToCheck := true }
    ⟨500, 511, 511, 511⟩ ⟨533, 511, 511, 511⟩ rfl rfl rfl).1

/-- C9: a press that is never released produces no classification and no
memory frame: from an idle arbiter, the tick consuming the press edge only
records `isPress` and the press start time — `commande_memory` and the
memory packet payload bytes are untouched and drive+zoom are emitted as
usual — and any further ticks without a second accepted edge keep the
arbiter idle, keep the button pressed, and never emit a memory frame. -/
theorem C9_press_without_release (s : SysState) (i : TickInput) (inps : List TickInput)
    (hrel : s.btn.isPress = false) (hpend : s.buttonToCheck = true)
    (hidle : s.commande_memory = 0) :
    (tick i s).1.btn.isPress = true ∧
    (tick i s).1.btn.timepressed = i.now ∧
    (tick i s).1.commande_memory = 0 ∧
    (tick i s).1.memSub = s.memSub ∧
    (tick i s).1.memSlot = s.memSlot ∧
    (tick i s).2.1 =
      [driveBytes (readCamera i.x i.y i.z).1, zoomBytes (readCamera i.x i.y i.z).1] ∧
    (run inps (tick i s).1).1.commande_memory = 0 ∧
    (run inps (tick i s).1).1.btn.isPress = true ∧
    (run inps (tick i s).1).1.memSub = s.memSub ∧
    noMemoryFrame ((tick i s).2.1 ++ (run inps (tick i s).1).2) := by
  have hpb := processButton_press i.now hpend hrel
  have ht : tick i s =
      ({ s with btn := { s.btn with isPress := true, timepressed := i.now },
                buttonToCheck := false },
       [driveBytes (readCamera i.x i.y i.z).1, zoomBytes (readCamera i.x i.y i.z).1],
       (readCamera i.x i.y i.z).2) := by
    rw [tick_eq, hpb, @emitPhase_idle
      { s with btn := { s.btn with isPress := true, timepressed := i.now },
               buttonToCheck := false }
      i.now (readCamera i.x i.y i.z).1 (by exact hidle)]
  have hrun := run_idle inps (tick i s).1 (by rw [ht]) (by rw [ht]; exact hidle)
  refine ⟨by rw [ht], by rw [ht], by rw [ht]; exact hidle, by rw [ht], by rw [ht],
    by rw [ht], hrun.1, ?_, ?_, ?_⟩
  · rw [hrun.2.2.1, ht]
  · rw [hrun.2.2.2.1, ht]
  · unfold noMemoryFrame
    intro f hf
    rcases List.mem_append.mp hf with hf | hf
    · rw [ht] at hf
      simp only [List.mem_cons, List.not_mem_nil, or_false] at hf
      rcases hf with rfl | rfl
      · simp [driveBytes]
      · simp [zoomBytes]
    · exact hrun.2.2.2.2.2 f hf

theorem C9_press_without_release_witness :
    (tick ⟨50, 511, 511, 511⟩ { initState with buttonToCheck := true }).1.btn.isPress = true :=
  (C9_press_without_release { initState with buttonToCheck := true } ⟨50, 511, 511, 511⟩
    [⟨83, 511, 511, 511⟩] rfl rfl rfl).1

/-- C5: every frame a tick writes matches its fixed layout: either the tick
writes exactly the 7-byte memory frame `81 01 04 3F <subcommand> 00 FF`
with subcommand `0x01` (store) or `0x02` (recall) and slot byte 0, or it
writes exactly the 9-byte drive frame
`81 01 06 01 <panSpeed> <tiltSpeed> <panDir> <tiltDir> FF` with both
direction codes in 1–3, followed by the 6-byte zoom frame
`81 01 04 07 <(zoomDir <<< 4) ||| zoomSpeed> FF`. -/
theorem C5_frame_layouts (i : TickInput) (s : SysState)
    (hsub : s.memSub = 0x01 ∨ s.memSub = 0x02) (hslot : s.memSlot = 0) :
    ((tick i s).2.1 = [[0x81, 0x01, 0x04, 0x3f, (tick i s).1.memSub, 0x00, 0xff]] ∧
      ((tick i s).1.memSub = 0x01 ∨ (tick i s).1.memSub = 0x02)) ∨
    ((tick i s).2.1 =
       [[0x81, 0x01, 0x06, 0x01,
         (readCamera i.x i.y i.z).1.panSpeed % 256,
         (readCamera i.x i.y i.z).1.tiltSpeed % 256,
         (readCamera i.x i.y i.z).1.panDirection.code,
         (readCamera i.x i.y i.z).1.tiltDirection.code, 0xff],
        [0x81, 0x01, 0x04, 0x07,
         (((readCamera i.x i.y i.z).1.zoomDirection.code <<< 4) |||
           (readCamera i.x i.y i.z).1.zoomSpeed) % 256, 0xff]] ∧
      1 ≤ (readCamera i.x i.y i.z).1.panDirection.code ∧
      (readCamera i.x i.y i.z).1.panDirection.code ≤ 3 ∧
      1 ≤ (readCamera i.x i.y i.z).1.tiltDirection.code ∧
      (readCamera i.x i.y i.z).1.tiltDirection.code ≤ 3) := by
  have hinv := processButton_memInv i.now s hsub hslot
  have hfe := emitPhase_fields i.now (readCamera i.x i.y i.z).1 (processButton i.now s)
  by_cases hcm : (processButton i.now s).commande_memory = 0
  · right
    refine ⟨?_, (panCode_bounds _).1, (panCode_bounds _).2,
      (tiltCode_bounds _).1, (tiltCode_bounds _).2⟩
    rw [tick_frames, emitPhase_idle _ _ hcm]
    rfl
  · left
    constructor
    · rw [tick_frames, emitPhase_frames _ _ (Nat.pos_of_ne_zero hcm), tick_state,
        hfe.2.2.1, hinv.2]
      rfl
    · rw [tick_state, hfe.2.2.1]
      exact hinv.1

theorem C5_frame_layouts_witness :
    ((tick ⟨0, 511, 511, 511⟩ initState).2.1 =
        [[0x81, 0x01, 0x04, 0x3f, (tick ⟨0, 511, 511, 511⟩ initState).1.memSub, 0x00, 0xff]] ∧
      ((tick ⟨0, 511, 511, 511⟩ initState).1.memSub = 0x01 ∨
        (tick ⟨0, 511, 511, 511⟩ initState).1.memSub = 0x02)) ∨
    ((tick ⟨0, 511, 511, 511⟩ initState).2.1 =
       [[0x81, 0x01, 0x06, 0x01,
         (readCamera 511 511 511).1.panSpeed % 256,
         (readCamera 511 511 511).1.tiltSpeed % 256,
         (readCamera 511 511 511).1.panDirection.code,
         (readCamera 511 511 511).1.tiltDirection.code, 0xff],
        [0x81, 0x01, 0x04, 0x07,
         (((readCamera 511 511 511).1.zoomDirection.code <<< 4) |||
           (readCamera 511 511 511).1.zoomSpeed) % 256, 0xff]] ∧
      1 ≤ (readCamera 511 511 511).1.panDirection.code ∧
      (readCamera 511 511 511).1.panDirection.code ≤ 3 ∧
      1 ≤ (readCamera 511 511 511).1.tiltDirection.code ∧
      (readCamera 511 511 511).1.tiltDirection.code ≤ 3) :=
  C5_frame_layouts ⟨0, 511, 511, 511⟩ initState (Or.inr rfl) rfl

/-- C7: on the low side of an axis (raw samples at most `leftLimit`), the
mapped speed is monotonically non-increasing in the sample — hence
non-decreasing in the distance from `leftLimit` — and bounded to
`[1, axisMaxSpeed]` with the per-axis maxima of the source: pan 24, tilt
23 on the low side (and 24 in the other direction — the asymmetry of the
`0x17` / `0x18` rescale bounds), zoom 7; for any sample `t ≤ maxVal` the
speeds never exceed 24 / 24 / 7. -/
theorem C7_low_side_monotone (s1 s2 t : Nat) (h12 : s1 ≤ s2) (h2 : s2 ≤ leftLimit)
    (ht : t ≤ maxVal) :
    ((mapPan s2).2 ≤ (mapPan s1).2 ∧ 1 ≤ (mapPan s2).2 ∧ (mapPan s1).2 ≤ 24) ∧
    ((mapTilt s2).2 ≤ (mapTilt s1).2 ∧ 1 ≤ (mapTilt s2).2 ∧ (mapTilt s1).2 ≤ 23) ∧
    ((mapZoom s2).2.1 ≤ (mapZoom s1).2.1 ∧ 1 ≤ (mapZoom s2).2.1 ∧ (mapZoom s1).2.1 ≤ 7) ∧
    ((mapPan t).2 ≤ 24 ∧ (mapTilt t).2 ≤ 24 ∧ (mapZoom t).2.1 ≤ 7) := by
  have hL := leftLimit_eq
  have hR := rightLimit_eq
  have hM : maxVal = 1023 := rfl
  have hpan : (mapPan s2).2 ≤ (mapPan s1).2 ∧ 1 ≤ (mapPan s2).2 ∧ (mapPan s1).2 ≤ 24 := by
    rcases Nat.lt_or_ge s2 leftLimit with hs2 | hs2
    · have hs1 : s1 < leftLimit := Nat.lt_of_le_of_lt h12 hs2
      rw [mapPan_low_speed hs1, mapPan_low_speed hs2]
      omega
    · have hr2 : s2 ≤ rightLimit := by omega
      rw [mapPan_dead_speed hs2 hr2]
      rcases Nat.lt_or_ge s1 leftLimit with hs1 | hs1
      · rw [mapPan_low_speed hs1]
        omega
      · rw [mapPan_dead_speed hs1 (by omega)]
        omega
  have htilt : (mapTilt s2).2 ≤ (mapTilt s1).2 ∧ 1 ≤ (mapTilt s2).2 ∧ (mapTilt s1).2 ≤ 23 := by
    rcases Nat.lt_or_ge s2 leftLimit with hs2 | hs2
    · have hs1 : s1 < leftLimit := Nat.lt_of_le_of_lt h12 hs2
      rw [mapTilt_low_speed hs1, mapTilt_low_speed hs2]
      omega
    · have hr2 : s2 ≤ rightLimit := by omega
      rw [mapTilt_dead_speed hs2 hr2]
      rcases Nat.lt_or_ge s1 leftLimit with hs1 | hs1
      · rw [mapTilt_low_speed hs1]
        omega
      · rw [mapTilt_dead_speed hs1 (by omega)]
        omega
  have hzoom : (mapZoom s2).2.1 ≤ (mapZoom s1).2.1 ∧ 1 ≤ (mapZoom s2).2.1 ∧
      (mapZoom s1).2.1 ≤ 7 := by
    rcases Nat.lt_or_ge s2 leftLimit with hs2 | hs2
    · have hs1 : s1 < leftLimit := Nat.lt_of_le_of_lt h12 hs2
      rw [mapZoom_low_speed hs1, mapZoom_low_speed hs2]
      omega
    · have hr2 : s2 ≤ rightLimit := by omega
      rw [mapZoom_dead_speed hs2 hr2]
      rcases Nat.lt_or_ge s1 leftLimit with hs1 | hs1
      · rw [mapZoom_low_speed hs1]
        omega
      · rw [mapZoom_dead_speed hs1 (by omega)]
        omega
  have hall : (mapPan t).2 ≤ 24 ∧ (mapTilt t).2 ≤ 24 ∧ (mapZoom t).2.1 ≤ 7 := by
    rcases Nat.lt_or_ge t leftLimit with h | h
    · rw [mapPan_low_speed h, mapTilt_low_speed h, mapZoom_low_speed h]
      omega
    · rcases Nat.lt_or_ge rightLimit t with h' | h'
      · rw [mapPan_high_speed h', mapTilt_high_speed h', mapZoom_high_speed h']
        omega
      · rw [mapPan_dead_speed h h', mapTilt_dead_speed h h', mapZoom_dead_speed h h']
        omega
  exact ⟨hpan, htilt, hzoom, hall⟩

theorem C7_low_side_monotone_witness :
    (mapPan 486).2 ≤ (mapPan 0).2 ∧ 1 ≤ (mapPan 486).2 ∧ (mapPan 0).2 ≤ 24 :=
  (C7_low_side_monotone 0 486 1023 (by decide) (by decide) (by decide)).1

/-- C8: for all raw samples in the ADC range [0, 1023], the speed stored in
the camera command lies in `[1, axisMax]` on every axis (pan ≤ 24, tilt
≤ 24, zoom ≤ 7), a stop direction always carries the speed-1 sentinel and
never 0, and the emitted payload bytes carry exactly these speeds: drive
bytes 4 and 5 are the pan and tilt speeds, and the zoom payload byte is
`(zoomDirCode <<< 4) ||| zoomSpeed` with no truncation. -/
theorem C8_speed_invariant (x y z : Nat) (hx : x ≤ 1023) (hy : y ≤ 1023) (hz : z ≤ 1023) :
    (1 ≤ (readCamera x y z).1.panSpeed ∧ (readCamera x y z).1.panSpeed ≤ 24) ∧
    (1 ≤ (readCamera x y z).1.tiltSpeed ∧ (readCamera x y z).1.tiltSpeed ≤ 24) ∧
    (1 ≤ (readCamera x y z).1.zoomSpeed ∧ (readCamera x y z).1.zoomSpeed ≤ 7) ∧
    ((readCamera x y z).1.panDirection = PanDirection.stop →
      (readCamera x y z).1.panSpeed = 1) ∧
    ((readCamera x y z).1.tiltDirection = TiltDirection.stop →
      (readCamera x y z).1.tiltSpeed = 1) ∧
    ((readCamera x y z).1.zoomDirection = ZoomDirection.stop →
      (readCamera x y z).1.zoomSpeed = 1) ∧
    (driveBytes (readCamera x y z).1)[4]? = some ((readCamera x y z).1.panSpeed) ∧
    (driveBytes (readCamera x y z).1)[5]? = some ((readCamera x y z).1.tiltSpeed) ∧
    (zoomBytes (readCamera x y z).1)[4]? =
      some (((readCamera x y z).1.zoomDirection.code <<< 4) |||
        (readCamera x y z).1.zoomSpeed) := by
  have hL := leftLimit_eq
  have hR := rightLimit_eq
  have hpan : 1 ≤ (mapPan x).2 ∧ (mapPan x).2 ≤ 24 := by
    rcases Nat.lt_or_ge x leftLimit with h | h
    · rw [mapPan_low_speed h]; omega
    · rcases Nat.lt_or_ge rightLimit x with h' | h'
      · rw [mapPan_high_speed h']; omega
      · rw [mapPan_dead_speed h h']; omega
  have htilt : 1 ≤ (mapTilt y).2 ∧ (mapTilt y).2 ≤ 24 := by
    rcases Nat.lt_or_ge y leftLimit with h | h
    · rw [mapTilt_low_speed h]; omega
    · rcases Nat.lt_or_ge rightLimit y with h' | h'
      · rw [mapTilt_high_speed h']; omega
      · rw [mapTilt_dead_speed h h']; omega
  have hzoom : 1 ≤ (mapZoom z).2.1 ∧ (mapZoom z).2.1 ≤ 7 := by
    rcases Nat.lt_or_ge z leftLimit with h | h
    · rw [mapZoom_low_speed h]; omega
    · rcases Nat.lt_or_ge rightLimit z with h' | h'
      · rw [mapZoom_high_speed h']; omega
      · rw [mapZoom_dead_speed h h']; omega
  have hpanS : (mapPan x).1 = PanDirection.stop → (mapPan x).2 = 1 := by
    rcases Nat.lt_or_ge x leftLimit with h | h
    · rw [mapPan_low_dir h]; intro hc; simp at hc
    · rcases Nat.lt_or_ge rightLimit x with h' | h'
      · rw [mapPan_high_dir h']; intro hc; simp at hc
      · intro _; exact mapPan_dead_speed h h'
  have htiltS : (mapTilt y).1 = TiltDirection.stop → (mapTilt y).2 = 1 := by
    rcases Nat.lt_or_ge y leftLimit with h | h
    · rw [mapTilt_low_dir h]; intro hc; simp at hc
    · rcases Nat.lt_or_ge rightLimit y with h' | h'
      · rw [mapTilt_high_dir h']; intro hc; simp at hc
      · intro _; exact mapTilt_dead_speed h h'
  have hzoomS : (mapZoom z).1 = ZoomDirection.stop → (mapZoom z).2.1 = 1 := by
    rcases Nat.lt_or_ge z leftLimit with h | h
    · rw [mapZoom_low_dir h]; intro hc; simp at hc
    · rcases Nat.lt_or_ge rightLimit z with h' | h'
      · rw [mapZoom_high_dir h']; intro hc; simp at hc
      · intro _; exact mapZoom_dead_speed h h'
  have hcode : (mapZoom z).1.code = 0 ∨ (mapZoom z).1.code = 2 ∨ (mapZoom z).1.code = 3 := by
    cases (mapZoom z).1 <;> simp [ZoomDirection.code]
  have horlt : (((mapZoom z).1.code <<< 4) ||| (mapZoom z).2.1) < 256 := by
    have h1 : (mapZoom z).1.code <<< 4 < 2 ^ 8 := by
      rcases hcode with h | h | h <;> rw [h] <;> decide
    have h2 : (mapZoom z).2.1 < 2 ^ 8 := by
      have := hzoom.2
      omega
    exact @Nat.bitwise_lt or ((mapZoom z).1.code <<< 4) ((mapZoom z).2.1) 8 h1 h2
  refine ⟨hpan, htilt, hzoom, hpanS, htiltS, hzoomS, ?_, ?_, ?_⟩
  · show some ((mapPan x).2 % 256) = some ((mapPan x).2)
    exact congrArg some (Nat.mod_eq_of_lt (by omega))
  · show some ((mapTilt y).2 % 256) = some ((mapTilt y).2)
    exact congrArg some (Nat.mod_eq_of_lt (by omega))
  · show some ((((mapZoom z).1.code <<< 4) ||| (mapZoom z).2.1) % 256) =
      some ((((mapZoom z).1.code <<< 4) ||| (mapZoom z).2.1))
    exact congrArg some (Nat.mod_eq_of_lt horlt)

theorem C8_speed_invariant_witness :
    1 ≤ (readCamera 0 1023 512).1.panSpeed ∧ (readCamera 0 1023 512).1.panSpeed ≤ 24 :=
  (C8_speed_invariant 0 1023 512 (by decide) (by decide) (by decide)).1

end Ptzpicocam
